import Mathlib

/-!
Verification development for the agentaflow-sro-community analytics scripts.

Shallow embedding of the two source files:
- `examples/demo/scripts/cost-calculator.py` (pricing table, utilization
  model, ROI estimator, demo cost report)
- `scripts/monitoring/build-analytics.py` (build-run aggregation,
  cache-efficiency heuristic, recommendation engine)

Python floats are modelled by `ℚ`; Python's `round(x, 2)` (round half to
even on the second decimal) is modelled exactly by `pyRound2`; Python
exceptions (`ZeroDivisionError`, the `TypeError` raised when a string
placeholder meets `+` with a number) are modelled by `Except String`.
-/

/-- Round half to even to the nearest integer, as Python's builtin `round`
does on the scaled value. -/
def roundHalfEven (q : ℚ) : ℤ :=
  let f := ⌊q⌋
  if q < f + 1/2 then f
  else if q = f + 1/2 then (if f % 2 = 0 then f else f + 1)
  else f + 1

/-- Python's `round(x, 2)`: round to two decimal places, half to even. -/
def pyRound2 (q : ℚ) : ℚ := (roundHalfEven (q * 100) : ℚ) / 100

/-! ## cost-calculator.py -/

/-- The static AWS pricing table of `calculate_gpu_instance_costs`
(lines 52-60): instance type to hourly unit cost. -/
def pricing : List (String × ℚ) :=
  [("g4dn.xlarge", 0.526),
   ("g4dn.2xlarge", 0.752),
   ("g4dn.4xlarge", 1.204),
   ("g5.xlarge", 1.006),
   ("g5.2xlarge", 1.212),
   ("p3.2xlarge", 3.06),
   ("p4d.24xlarge", 32.77)]

/-- A value of the `costs` dict built by `calculate_gpu_instance_costs`:
either a number (`pricing[t] * hours`) or the textual placeholder string
the textual placeholder message stored for unknown instance types. -/
inductive CostVal where
  | num (value : ℚ)
  | unknownStr (text : String)
deriving DecidableEq

/-- Source `calculate_gpu_instance_costs(instance_types, hours)` (lines 50-70):
a dict mapping each requested type to its cost or to the placeholder. -/
def calculate_gpu_instance_costs (instance_types : List String) (hours : ℚ) :
    List (String × CostVal) :=
  instance_types.map (fun t =>
    (t, match pricing.lookup t with
        | some p => CostVal.num (p * hours)
        | none => CostVal.unknownStr ("Unknown pricing for " ++ t)))

/-- Python `dict.get(key, default)` on the association-list model. -/
def dictGet (d : List (String × CostVal)) (k : String) (dflt : CostVal) : CostVal :=
  match d.lookup k with
  | some v => v
  | none => dflt

/-- Python string repetition `s * n`. -/
def strTimes (s : String) (n : ℕ) : String := String.join (List.replicate n s)

/-- Python `value * node_count` where `value` is a float or a str:
a number is multiplied, a string is repeated (no error yet). -/
def costValMul (v : CostVal) (n : ℕ) : CostVal :=
  match v with
  | CostVal.num q => CostVal.num (q * n)
  | CostVal.unknownStr s => CostVal.unknownStr (strTimes s n)

/-- The record returned by `calculate_utilization_improvement`
(lines 77-82). -/
structure UtilizationImprovement where
  utilization_improvement_percent : ℚ
  cost_efficiency_multiplier : ℚ
  idle_time_reduction_percent : ℚ
  effective_cost_per_work_unit : ℚ
deriving DecidableEq

/-- Source `calculate_utilization_improvement(baseline_util, optimized_util)`
(lines 72-83).  Each Python division raises `ZeroDivisionError` when its
denominator is zero, in source order: `improvement_percent` and
`cost_efficiency` divide by `baseline_util`, `idle_time_reduction`
divides by `1 - baseline_util`, and `effective_cost_per_work_unit`
divides by `cost_efficiency`. -/
def calculate_utilization_improvement (baseline_util optimized_util : ℚ) :
    Except String UtilizationImprovement :=
  if baseline_util = 0 then Except.error "ZeroDivisionError"
  else
    let improvement_percent := (optimized_util - baseline_util) / baseline_util * 100
    let cost_efficiency := optimized_util / baseline_util
    if 1 - baseline_util = 0 then Except.error "ZeroDivisionError"
    else
      let idle_time_reduction := (1 - (1 - optimized_util) / (1 - baseline_util)) * 100
      if cost_efficiency = 0 then Except.error "ZeroDivisionError"
      else
        Except.ok
          { utilization_improvement_percent := improvement_percent
            cost_efficiency_multiplier := cost_efficiency
            idle_time_reduction_percent := idle_time_reduction
            effective_cost_per_work_unit := 1 / cost_efficiency }

/-- The `payback_period_months` value: a finite number of months or the
`float('inf')` sentinel. -/
inductive PaybackPeriod where
  | months (value : ℚ)
  | posInf
deriving DecidableEq

/-- The record returned by `generate_roi_analysis` (lines 101-111). -/
structure ROIReport where
  current_utilization : ℚ
  improved_utilization : ℚ
  cost_reduction_percent : ℚ
  monthly_savings : ℚ
  annual_savings : ℚ
  agentaflow_monthly_cost : ℚ
  net_monthly_savings : ℚ
  payback_period_months : PaybackPeriod
  annual_roi_percent : ℚ
deriving DecidableEq

/-- Source `generate_roi_analysis(monthly_gpu_spend, utilization_improvement)`
(lines 85-111), with the hard-coded `current_efficiency = 0.55` and
`agentaflow_monthly_cost = 50`. -/
def generate_roi_analysis (monthly_gpu_spend utilization_improvement : ℚ) : ROIReport :=
  let current_efficiency : ℚ := 0.55
  let improved_efficiency := current_efficiency * (1 + utilization_improvement / 100)
  let cost_reduction_percent :=
    (improved_efficiency - current_efficiency) / current_efficiency * 100
  let monthly_savings := monthly_gpu_spend * (cost_reduction_percent / 100)
  let annual_savings := monthly_savings * 12
  let agentaflow_monthly_cost : ℚ := 50
  let net_monthly_savings := monthly_savings - agentaflow_monthly_cost
  let roi_months :=
    if monthly_savings > 0 then PaybackPeriod.months (agentaflow_monthly_cost / monthly_savings)
    else PaybackPeriod.posInf
  { current_utilization := current_efficiency * 100
    improved_utilization := improved_efficiency * 100
    cost_reduction_percent := cost_reduction_percent
    monthly_savings := monthly_savings
    annual_savings := annual_savings
    agentaflow_monthly_cost := agentaflow_monthly_cost
    net_monthly_savings := net_monthly_savings
    payback_period_months := roi_months
    annual_roi_percent :=
      if monthly_savings > 0 then annual_savings / (agentaflow_monthly_cost * 12) * 100 else 0 }

/-- The demo configuration consumed by `generate_demo_report`
(defaults in `main`: 8 hours, g4dn.xlarge, 2 nodes, 55/85 utilization). -/
structure DemoConfig where
  duration_hours : ℚ
  instance_type : String
  node_count : ℕ
  baseline_utilization : ℚ
  optimized_utilization : ℚ
  monthly_gpu_spend : ℚ
deriving DecidableEq

/-- The `infrastructure_costs` dict of the demo report (lines 137-144). -/
structure InfrastructureCosts where
  gpu_instances : ℚ
  eks_control_plane : ℚ
  monitoring_stack : ℚ
  networking : ℚ
  storage : ℚ
  total : ℚ
deriving DecidableEq

/-- The `calculations` part of the demo report (the `demo_info` echo and
the wall-clock timestamp are I/O metadata, outside the computation). -/
structure DemoReport where
  infrastructure_costs : InfrastructureCosts
  performance_improvements : UtilizationImprovement
  roi_analysis : ROIReport
deriving DecidableEq

/-- Source `generate_demo_report(demo_config)` (lines 113-146).  The unknown-type
placeholder string survives `* node_count` as a (repeated) string and then
raises `TypeError` at `total_gpu_cost + eks_cost + ...`; a baseline (resp.
optimized) utilization hitting a division guard propagates
`ZeroDivisionError` from `calculate_utilization_improvement`. -/
def generate_demo_report (cfg : DemoConfig) : Except String DemoReport :=
  let gpu_hours := cfg.duration_hours
  let instance_costs := calculate_gpu_instance_costs [cfg.instance_type] gpu_hours
  let total_gpu_cost := costValMul (dictGet instance_costs cfg.instance_type (CostVal.num 0))
    cfg.node_count
  let eks_cost := 0.10 * gpu_hours
  let monitoring_cost : ℚ := 5
  let networking_cost : ℚ := 2
  let storage_cost : ℚ := 3
  match total_gpu_cost with
  | CostVal.unknownStr _ =>
      Except.error "TypeError: unsupported operand types for str and float"
  | CostVal.num gpu =>
      let total_demo_cost := gpu + eks_cost + monitoring_cost + networking_cost + storage_cost
      match calculate_utilization_improvement (cfg.baseline_utilization / 100)
          (cfg.optimized_utilization / 100) with
      | Except.error e => Except.error e
      | Except.ok imp =>
          let roi := generate_roi_analysis cfg.monthly_gpu_spend
            imp.utilization_improvement_percent
          Except.ok
            { infrastructure_costs :=
                { gpu_instances := gpu
                  eks_control_plane := eks_cost
                  monitoring_stack := monitoring_cost
                  networking := networking_cost
                  storage := storage_cost
                  total := total_demo_cost }
              performance_improvements := imp
              roi_analysis := roi }

/-! ## build-analytics.py -/

/-- A GitHub Actions workflow run as consumed by the analytics: terminal
conclusion plus creation/update timestamps (modelled in epoch seconds;
`none` is a missing/falsy timestamp field). -/
structure BuildRun where
  conclusion : String
  created_at : Option ℚ
  updated_at : Option ℚ
deriving DecidableEq

/-- The duration `(updated - created).total_seconds() / 60`, defined only when both
timestamp fields are present (the `if run["created_at"] and
run["updated_at"]` guard). -/
def runDuration (r : BuildRun) : Option ℚ :=
  match r.created_at, r.updated_at with
  | some c, some u => some ((u - c) / 60)
  | _, _ => none

/-- The duration-collection loop of `analyze_build_performance`
(lines 52-58): one duration per run of the given list that has both
timestamps. -/
def buildDurations (runs : List BuildRun) : List ℚ :=
  runs.filterMap runDuration

/-- Python `min(l)` guarded by `if l else 0`. -/
def pyMinD : List ℚ → ℚ
  | [] => 0
  | x :: xs => xs.foldl min x

/-- Python `max(l)` guarded by `if l else 0`. -/
def pyMaxD : List ℚ → ℚ
  | [] => 0
  | x :: xs => xs.foldl max x

/-- One `defaultdict(int)` increment: bump the count of `k`, inserting it
with count 1 when absent. -/
def incrKey : List (String × ℕ) → String → List (String × ℕ)
  | [], k => [(k, 1)]
  | (k₀, v) :: rest, k =>
      if k₀ = k then (k₀, v + 1) :: rest else (k₀, v) :: incrKey rest k

/-- The `failure_reasons` tally loop (lines 66-69): counts of
`run.get("conclusion", "unknown")` over the failed runs. -/
def tallyConclusions (failed_runs : List BuildRun) : List (String × ℕ) :=
  failed_runs.foldl (fun m r => incrKey m r.conclusion) []

/-- The dict returned by `analyze_build_performance` (lines 71-80). -/
structure BuildMetrics where
  total_runs : ℕ
  successful_runs : ℕ
  failed_runs : ℕ
  success_rate : ℚ
  avg_duration_minutes : ℚ
  min_duration_minutes : ℚ
  max_duration_minutes : ℚ
  failure_reasons : List (String × ℕ)
deriving DecidableEq

/-- Source `analyze_build_performance(runs)` (lines 45-80). -/
def analyze_build_performance (runs : List BuildRun) : BuildMetrics :=
  let total_runs := runs.length
  let successful_runs := runs.filter (fun r => r.conclusion == "success")
  let failed_runs := runs.filter (fun r => r.conclusion == "failure")
  let durations := buildDurations successful_runs
  let avg_duration := if durations = [] then 0 else durations.sum / durations.length
  let success_rate :=
    if total_runs > 0 then (successful_runs.length : ℚ) / total_runs * 100 else 0
  { total_runs := total_runs
    successful_runs := successful_runs.length
    failed_runs := failed_runs.length
    success_rate := pyRound2 success_rate
    avg_duration_minutes := pyRound2 avg_duration
    min_duration_minutes := pyRound2 (pyMinD durations)
    max_duration_minutes := pyRound2 (pyMaxD durations)
    failure_reasons := tallyConclusions failed_runs }

/-- The dict returned by `calculate_cache_efficiency`: the empty-input
branch carries no `fast_builds`/`total_builds` keys (hence `Option`). -/
structure CacheEfficiencyEstimate where
  cache_hit_rate_estimate : ℚ
  fast_builds : Option ℕ
  total_builds : Option ℕ
  note : String
deriving DecidableEq

/-- The duration-extraction loop of `calculate_cache_efficiency`
(lines 87-93): durations of runs with `conclusion == "success"` and both
timestamps present. -/
def cacheSuccessDurations (runs : List BuildRun) : List ℚ :=
  runs.filterMap (fun r => if r.conclusion == "success" then runDuration r else none)

/-- The duration-side computation of `calculate_cache_efficiency`
(lines 95-107): everything after the extraction loop, operating only on
the `durations` list. -/
def cacheEfficiencyFromDurations (durations : List ℚ) : CacheEfficiencyEstimate :=
  if durations = [] then
    { cache_hit_rate_estimate := 0
      fast_builds := none
      total_builds := none
      note := "No data available" }
  else
    let avg_duration := durations.sum / durations.length
    let fast_builds := durations.filter (fun d => d < avg_duration * 0.8)
    let cache_hit_rate :=
      if durations = [] then 0 else (fast_builds.length : ℚ) / durations.length * 100
    { cache_hit_rate_estimate := pyRound2 cache_hit_rate
      fast_builds := some fast_builds.length
      total_builds := some durations.length
      note := "Estimated based on build duration variance" }

/-- Source `calculate_cache_efficiency(runs)` (lines 84-107). -/
def calculate_cache_efficiency (runs : List BuildRun) : CacheEfficiencyEstimate :=
  cacheEfficiencyFromDurations (cacheSuccessDurations runs)

/-- The advisory items built by `generate_recommendations` (the
surrounding f-string formatting is reporting boilerplate; each item
carries the numeric payload interpolated into the string). -/
inductive Recommendation where
  | investigateFailures (success_rate : ℚ)
  | optimizeBuildTime (avg_duration_minutes : ℚ)
  | reviewCachingStrategy
  | allGood
deriving DecidableEq

/-- Source `generate_recommendations(metrics)` (lines 109-135).  Note the source
calls `calculate_cache_efficiency([])` on a literal empty list for the
cache rule. -/
def generate_recommendations (metrics : BuildMetrics) : List Recommendation :=
  let recommendations : List Recommendation := []
  let recommendations :=
    if metrics.success_rate < 90 then
      recommendations ++ [Recommendation.investigateFailures metrics.success_rate]
    else recommendations
  let recommendations :=
    if metrics.avg_duration_minutes > 15 then
      recommendations ++ [Recommendation.optimizeBuildTime metrics.avg_duration_minutes]
    else recommendations
  let cache_metrics := calculate_cache_efficiency []
  let recommendations :=
    if cache_metrics.cache_hit_rate_estimate < 80 then
      recommendations ++ [Recommendation.reviewCachingStrategy]
    else recommendations
  if recommendations = [] then [Recommendation.allGood] else recommendations

/-! ## Helper lemmas -/

/-- The rounded value never exceeds the input by more than one half. -/
theorem roundHalfEven_le (q : ℚ) : (roundHalfEven q : ℚ) ≤ q + 1/2 := by
  unfold roundHalfEven
  have hf := Int.floor_le q
  by_cases h1 : q < (⌊q⌋ : ℚ) + 1/2
  · simp only [if_pos h1]
    linarith
  · simp only [if_neg h1]
    by_cases h2 : q = (⌊q⌋ : ℚ) + 1/2
    · simp only [if_pos h2]
      by_cases h3 : ⌊q⌋ % 2 = 0
      · simp only [if_pos h3]
        linarith
      · simp only [if_neg h3]
        push_cast
        linarith
    · simp only [if_neg h2]
      push_cast
      linarith [not_lt.mp h1]

/-- Rounding to two decimals cannot push a value that is at most 100 above
100. -/
theorem pyRound2_le_100 {q : ℚ} (h : q ≤ 100) : pyRound2 q ≤ 100 := by
  unfold pyRound2
  have h1 : (roundHalfEven (q * 100) : ℚ) ≤ q * 100 + 1/2 := roundHalfEven_le _
  have h3 : roundHalfEven (q * 100) ≤ 10000 := by
    by_contra hc
    push_neg at hc
    have h4 : (10001 : ℚ) ≤ (roundHalfEven (q * 100) : ℚ) := by
      exact_mod_cast Int.add_one_le_iff.mpr hc
    linarith
  have h5 : (roundHalfEven (q * 100) : ℚ) ≤ 10000 := by exact_mod_cast h3
  linarith

/-- A list all of whose members are below `c` has sum below `c` times its
length, provided it is non-empty. -/
theorem sum_lt_of_forall_lt :
    ∀ (l : List ℚ) (c : ℚ), l ≠ [] → (∀ x ∈ l, x < c) → l.sum < c * l.length
  | [], _, h, _ => absurd rfl h
  | [x], c, _, h => by
      have := h x (by simp)
      simp only [List.sum_cons, List.sum_nil, List.length_cons, List.length_nil]
      push_cast
      linarith
  | x :: y :: t, c, _, h => by
      have ih := sum_lt_of_forall_lt (y :: t) c (by simp)
        (fun z hz => h z (List.mem_cons_of_mem _ hz))
      have hx := h x (by simp)
      simp only [List.sum_cons, List.length_cons] at ih ⊢
      push_cast at ih ⊢
      linarith

/-- Two pointwise-exclusive filters of the same list cannot jointly exceed
its length. -/
theorem length_filter_add_length_filter_le (p q : α → Bool) (l : List α)
    (hpq : ∀ x, p x = true → q x = false) :
    (l.filter p).length + (l.filter q).length ≤ l.length := by
  induction l with
  | nil => simp
  | cons a t ih =>
    simp only [List.filter_cons, List.length_cons]
    by_cases hp : p a = true
    · have hq := hpq a hp
      simp only [hp, hq, if_true, Bool.false_eq_true, if_false, List.length_cons]
      omega
    · have hp' : p a = false := by revert hp; cases p a <;> simp
      simp only [hp', Bool.false_eq_true, if_false]
      by_cases hq : q a = true
      · simp only [hq, if_true, List.length_cons]
        omega
      · have hq' : q a = false := by revert hq; cases q a <;> simp
        simp only [hq', Bool.false_eq_true, if_false]
        omega

/-- Evaluation of `cacheEfficiencyFromDurations` on a non-empty list: the else-branch in
closed form. -/
theorem cacheEfficiencyFromDurations_of_ne_nil (l : List ℚ) (h : l ≠ []) :
    cacheEfficiencyFromDurations l =
      { cache_hit_rate_estimate :=
          pyRound2 (((l.filter (fun d => d < l.sum / l.length * 0.8)).length : ℚ) /
            l.length * 100)
        fast_builds := some (l.filter (fun d => d < l.sum / l.length * 0.8)).length
        total_builds := some l.length
        note := "Estimated based on build duration variance" } := by
  simp only [cacheEfficiencyFromDurations, h, if_false]

/-! ## Claims -/

/-- C5: for every utilization sample with baseline and optimized in the
open interval (0,1), `calculate_utilization_improvement` succeeds and the
returned `cost_efficiency_multiplier` and `effective_cost_per_work_unit`
are exact reciprocals: their product equals 1. -/
theorem c5_cost_efficiency_reciprocal (b o : ℚ) (hb0 : 0 < b) (hb1 : b < 1)
    (ho0 : 0 < o) (ho1 : o < 1) :
    ∃ r, calculate_utilization_improvement b o = Except.ok r ∧
      r.cost_efficiency_multiplier * r.effective_cost_per_work_unit = 1 := by
  have hb : b ≠ 0 := ne_of_gt hb0
  have hb' : 1 - b ≠ 0 := ne_of_gt (by linarith)
  have hob : o / b ≠ 0 := div_ne_zero (ne_of_gt ho0) hb
  refine ⟨⟨(o - b) / b * 100, o / b, (1 - (1 - o) / (1 - b)) * 100, 1 / (o / b)⟩, ?_, ?_⟩
  · simp only [calculate_utilization_improvement, hb, hb', hob, if_false]
  · exact mul_one_div_cancel hob

/-- C5 witness: the sample (0.55, 0.85) from the demo defaults. -/
theorem c5_cost_efficiency_reciprocal_witness :
    ∃ r, calculate_utilization_improvement (55/100) (85/100) = Except.ok r ∧
      r.cost_efficiency_multiplier * r.effective_cost_per_work_unit = 1 :=
  c5_cost_efficiency_reciprocal (55/100) (85/100) (by norm_num) (by norm_num)
    (by norm_num) (by norm_num)

/-- C6: `calculate_utilization_improvement` fails with the surfaced
`ZeroDivisionError` both when the baseline is 0 (first division) and when
the baseline is 1 (the `1 - baseline` denominator of the idle-time
formula); no record with an inf/NaN value is returned in either case. -/
theorem c6_division_guards (o : ℚ) :
    calculate_utilization_improvement 0 o = Except.error "ZeroDivisionError" ∧
    calculate_utilization_improvement 1 o = Except.error "ZeroDivisionError" := by
  constructor
  · simp [calculate_utilization_improvement]
  · norm_num [calculate_utilization_improvement]

/-- C3: the ROI report's `payback_period_months` is the infinity sentinel
exactly when `monthly_savings ≤ 0`, is the finite quotient
`agentaflow_monthly_cost / monthly_savings` when `monthly_savings > 0`,
`annual_roi_percent` is 0 whenever `monthly_savings ≤ 0`, and a zero
monthly GPU spend gives zero savings, the infinity sentinel and zero ROI. -/
theorem c3_payback_sentinel (spend u : ℚ) :
    ((generate_roi_analysis spend u).payback_period_months = PaybackPeriod.posInf ↔
      (generate_roi_analysis spend u).monthly_savings ≤ 0) ∧
    ((generate_roi_analysis spend u).monthly_savings > 0 →
      (generate_roi_analysis spend u).payback_period_months =
        PaybackPeriod.months
          ((generate_roi_analysis spend u).agentaflow_monthly_cost /
            (generate_roi_analysis spend u).monthly_savings)) ∧
    ((generate_roi_analysis spend u).monthly_savings ≤ 0 →
      (generate_roi_analysis spend u).annual_roi_percent = 0) ∧
    (spend = 0 →
      (generate_roi_analysis spend u).monthly_savings = 0 ∧
      (generate_roi_analysis spend u).payback_period_months = PaybackPeriod.posInf ∧
      (generate_roi_analysis spend u).annual_roi_percent = 0) := by
  have hms : (generate_roi_analysis spend u).monthly_savings =
      spend * ((0.55 * (1 + u / 100) - 0.55) / 0.55 * 100 / 100) := rfl
  have hpp : (generate_roi_analysis spend u).payback_period_months =
      (if spend * ((0.55 * (1 + u / 100) - 0.55) / 0.55 * 100 / 100) > 0 then
        PaybackPeriod.months
          (50 / (spend * ((0.55 * (1 + u / 100) - 0.55) / 0.55 * 100 / 100)))
      else PaybackPeriod.posInf) := rfl
  have har : (generate_roi_analysis spend u).annual_roi_percent =
      (if spend * ((0.55 * (1 + u / 100) - 0.55) / 0.55 * 100 / 100) > 0 then
        spend * ((0.55 * (1 + u / 100) - 0.55) / 0.55 * 100 / 100) * 12 / (50 * 12) * 100
      else 0) := rfl
  have hac : (generate_roi_analysis spend u).agentaflow_monthly_cost = 50 := rfl
  by_cases h : spend * ((0.55 * (1 + u / 100) - 0.55) / 0.55 * 100 / 100) > 0
  · refine ⟨?_, ?_, ?_, ?_⟩
    · rw [hpp, hms, if_pos h]
      constructor
      · intro hc
        exact absurd hc (by simp)
      · intro hc
        linarith
    · intro _
      rw [hpp, hac, hms, if_pos h]
    · intro hc
      rw [hms] at hc
      linarith
    · intro hs
      exfalso
      rw [hs, zero_mul] at h
      exact lt_irrefl 0 h
  · refine ⟨?_, ?_, ?_, ?_⟩
    · rw [hpp, hms, if_neg h]
      exact ⟨fun _ => not_lt.mp h, fun _ => rfl⟩
    · intro hc
      rw [hms] at hc
      exact absurd hc h
    · intro _
      rw [har, if_neg h]
    · intro hs
      refine ⟨?_, ?_, ?_⟩
      · rw [hms, hs, zero_mul]
      · rw [hpp, if_neg h]
      · rw [har, if_neg h]

/-- C3 witness: zero monthly GPU spend with the demo's 54.5 percent
improvement gives zero savings, the infinity sentinel and zero ROI. -/
theorem c3_payback_sentinel_witness :
    (generate_roi_analysis 0 (600/11)).monthly_savings = 0 ∧
    (generate_roi_analysis 0 (600/11)).payback_period_months = PaybackPeriod.posInf ∧
    (generate_roi_analysis 0 (600/11)).annual_roi_percent = 0 :=
  (c3_payback_sentinel 0 (600/11)).2.2.2 rfl

/-- C2: code-bug exhibit.  With metrics whose success rate (95) and
average duration (10) are within thresholds — a situation in which, for
any supplied cache estimate of at least 80, the claim requires no
review-caching advisory and the single all-good message — the code still
emits the review-caching advisory (and no all-good message), because
`generate_recommendations` recomputes the cache estimate from a literal
empty run list instead of using supplied cache data. -/
theorem c2_cache_rule_always_fires :
    generate_recommendations
        { total_runs := 100, successful_runs := 95, failed_runs := 5, success_rate := 95,
          avg_duration_minutes := 10, min_duration_minutes := 5, max_duration_minutes := 14,
          failure_reasons := [("failure", 5)] } =
      [Recommendation.reviewCachingStrategy] := by
  norm_num [generate_recommendations, calculate_cache_efficiency, cacheSuccessDurations,
    cacheEfficiencyFromDurations]

/-- C1: an instance type missing from the pricing table gets the
distinguishable string placeholder (not a number, and not zero) in the
costs dict, and the cost report computation fails with the surfaced
`TypeError` instead of summing a coerced number into the total. -/
theorem c1_unknown_instance_fails (cfg : DemoConfig)
    (h : pricing.lookup cfg.instance_type = none) :
    dictGet (calculate_gpu_instance_costs [cfg.instance_type] cfg.duration_hours)
        cfg.instance_type (CostVal.num 0) =
      CostVal.unknownStr ("Unknown pricing for " ++ cfg.instance_type) ∧
    generate_demo_report cfg =
      Except.error "TypeError: unsupported operand types for str and float" := by
  have h1 : calculate_gpu_instance_costs [cfg.instance_type] cfg.duration_hours =
      [(cfg.instance_type,
        CostVal.unknownStr ("Unknown pricing for " ++ cfg.instance_type))] := by
    simp only [calculate_gpu_instance_costs, List.map_cons, List.map_nil, h]
  have hd : dictGet (calculate_gpu_instance_costs [cfg.instance_type] cfg.duration_hours)
      cfg.instance_type (CostVal.num 0) =
      CostVal.unknownStr ("Unknown pricing for " ++ cfg.instance_type) := by
    rw [h1]
    simp only [dictGet, List.lookup, beq_self_eq_true]
  refine ⟨hd, ?_⟩
  simp only [generate_demo_report, hd, costValMul]

/-- C1 witness: the unpriced instance type t2.micro. -/
theorem c1_unknown_instance_fails_witness :
    pricing.lookup "t2.micro" = none ∧
    generate_demo_report ⟨8, "t2.micro", 2, 55, 85, 10000⟩ =
      Except.error "TypeError: unsupported operand types for str and float" :=
  ⟨by simp [pricing, List.lookup],
   (c1_unknown_instance_fails ⟨8, "t2.micro", 2, 55, 85, 10000⟩
     (by simp [pricing, List.lookup])).2⟩

/-- Rounding zero gives zero. -/
theorem pyRound2_zero : pyRound2 0 = 0 := by
  norm_num [pyRound2, roundHalfEven]

/-- A 3-run history with one success, used against the exact success-rate
formula. -/
def c7runs : List BuildRun :=
  [⟨"success", some 0, some 600⟩, ⟨"failure", some 0, some 600⟩,
   ⟨"failure", some 0, some 600⟩]

/-- C7 counterexample: with 1 success out of 3 runs the reported
`success_rate` is the rounded 33.33, not the exact 1/3 * 100 the claim
demands. -/
theorem c7_counterexample :
    (analyze_build_performance c7runs).success_rate ≠
      ((analyze_build_performance c7runs).successful_runs : ℚ) /
        ((analyze_build_performance c7runs).total_runs : ℚ) * 100 := by
  have h2 : (analyze_build_performance c7runs).successful_runs = 1 := by
    simp [analyze_build_performance, c7runs]
  have h3 : (analyze_build_performance c7runs).total_runs = 3 := by
    simp [analyze_build_performance, c7runs]
  have h1 : (analyze_build_performance c7runs).success_rate = 3333 / 100 := by
    have hr : (analyze_build_performance c7runs).success_rate =
        pyRound2 (if c7runs.length > 0 then
          ((c7runs.filter (fun r => r.conclusion == "success")).length : ℚ) /
            (c7runs.length : ℚ) * 100 else 0) := rfl
    rw [hr]
    have hf : (c7runs.filter (fun r => r.conclusion == "success")).length = 1 := by
      simp [c7runs]
    have hl : c7runs.length = 3 := by simp [c7runs]
    rw [hf, hl]
    norm_num [pyRound2, roundHalfEven]
  rw [h1, h2, h3]
  norm_num

/-- C7 (amended): the reported success rate is the exact ratio rounded to
two decimals when there are runs, and 0 otherwise; aggregating the empty
run list yields all-zero metrics and an empty failure map without error. -/
theorem c7_success_rate (runs : List BuildRun) :
    ((analyze_build_performance runs).success_rate =
      if runs.length > 0 then
        pyRound2 (((runs.filter (fun r => r.conclusion == "success")).length : ℚ) /
          (runs.length : ℚ) * 100)
      else 0) ∧
    analyze_build_performance [] =
      { total_runs := 0, successful_runs := 0, failed_runs := 0, success_rate := 0,
        avg_duration_minutes := 0, min_duration_minutes := 0, max_duration_minutes := 0,
        failure_reasons := [] } := by
  constructor
  · have hr : (analyze_build_performance runs).success_rate =
        pyRound2 (if runs.length > 0 then
          ((runs.filter (fun r => r.conclusion == "success")).length : ℚ) /
            (runs.length : ℚ) * 100 else 0) := rfl
    rw [hr]
    by_cases h : runs.length > 0
    · rw [if_pos h, if_pos h]
    · rw [if_neg h, if_neg h, pyRound2_zero]
  · norm_num [analyze_build_performance, buildDurations, pyMinD, pyMaxD, tallyConclusions,
      pyRound2, roundHalfEven]

/-- C8: successes and failures partition at most all runs (other
conclusions count toward neither), every run counts toward `total_runs`
whether or not it has timestamps, and the duration sample feeding the
avg/min/max statistics consists of exactly the durations of the
success-conclusion runs with both timestamps present. -/
theorem c8_partition_and_durations (runs : List BuildRun) :
    (analyze_build_performance runs).successful_runs +
        (analyze_build_performance runs).failed_runs ≤
      (analyze_build_performance runs).total_runs ∧
    (analyze_build_performance runs).total_runs = runs.length ∧
    buildDurations (runs.filter (fun r => r.conclusion == "success")) =
      (runs.filter (fun r =>
          r.conclusion == "success" && r.created_at.isSome && r.updated_at.isSome)).map
        (fun r => (r.updated_at.getD 0 - r.created_at.getD 0) / 60) := by
  refine ⟨?_, rfl, ?_⟩
  · exact length_filter_add_length_filter_le _ _ runs (by
      intro x hx
      have hc : x.conclusion = "success" := by simpa using hx
      simp [hc])
  · induction runs with
    | nil => rfl
    | cons r t ih =>
      by_cases hs : r.conclusion = "success"
      · rcases hc : r.created_at with _ | c <;> rcases hu : r.updated_at with _ | u <;>
          simp [List.filter_cons, hs, hc, hu, buildDurations, runDuration,
            List.filterMap_cons, ← ih, buildDurations]
      · have hs' : (r.conclusion == "success") = false := by simp [hs]
        simp only [List.filter_cons, hs', Bool.false_and, Bool.false_eq_true, if_false]
        exact ih

/-- C9 counterexample: with durations [1, 10, 10] exactly one run is fast
(1 of 3), but the reported hit rate is the rounded 33.33, not the exact
1/3 * 100 the claim demands. -/
theorem c9_counterexample :
    (cacheEfficiencyFromDurations [1, 10, 10]).fast_builds = some 1 ∧
    (cacheEfficiencyFromDurations [1, 10, 10]).total_builds = some 3 ∧
    (cacheEfficiencyFromDurations [1, 10, 10]).cache_hit_rate_estimate ≠
      (1 : ℚ) / 3 * 100 := by
  have h := cacheEfficiencyFromDurations_of_ne_nil [1, 10, 10] (by simp)
  have hf : (List.filter (fun d => d < ([1, 10, 10] : List ℚ).sum /
      (([1, 10, 10] : List ℚ).length : ℚ) * 0.8) [1, 10, 10]).length = 1 := by
    norm_num [List.filter]
  rw [h]
  refine ⟨by rw [hf], rfl, ?_⟩
  rw [hf]
  have hl : (([1, 10, 10] : List ℚ).length : ℚ) = 3 := by norm_num
  rw [hl]
  norm_num [pyRound2, roundHalfEven]

/-- C9 (amended): on a non-empty duration list the estimator counts as
fast exactly the durations strictly below 0.8 times the mean and reports
the percentage of fast runs rounded to two decimals; the empty list gives
the zeroed no-data record, and 9 ten-minute runs plus one two-minute run
give exactly a 10 percent hit rate with one fast run. -/
theorem c9_cache_estimator (durations : List ℚ) (hne : durations ≠ [])
    (hnn : ∀ d ∈ durations, 0 ≤ d) :
    ((cacheEfficiencyFromDurations durations).fast_builds =
        some ((durations.filter
          (fun d => d < 0.8 * (durations.sum / (durations.length : ℚ)))).length) ∧
      (cacheEfficiencyFromDurations durations).total_builds = some durations.length ∧
      (cacheEfficiencyFromDurations durations).cache_hit_rate_estimate =
        pyRound2 (((durations.filter
            (fun d => d < 0.8 * (durations.sum / (durations.length : ℚ)))).length : ℚ) /
          (durations.length : ℚ) * 100)) ∧
    cacheEfficiencyFromDurations [] =
      { cache_hit_rate_estimate := 0, fast_builds := none, total_builds := none,
        note := "No data available" } ∧
    cacheEfficiencyFromDurations [10, 10, 10, 10, 10, 10, 10, 10, 10, 2] =
      { cache_hit_rate_estimate := 10, fast_builds := some 1, total_builds := some 10,
        note := "Estimated based on build duration variance" } := by
  have hfun : (fun d : ℚ => decide (d < durations.sum / (durations.length : ℚ) * 0.8)) =
      (fun d : ℚ => decide (d < 0.8 * (durations.sum / (durations.length : ℚ)))) := by
    funext d
    rw [mul_comm]
  refine ⟨?_, ?_, ?_⟩
  · rw [cacheEfficiencyFromDurations_of_ne_nil durations hne, hfun]
    exact ⟨rfl, rfl, rfl⟩
  · rfl
  · have h := cacheEfficiencyFromDurations_of_ne_nil
      [10, 10, 10, 10, 10, 10, 10, 10, 10, 2] (by simp)
    rw [h]
    have hf : (List.filter (fun d => d < (([10, 10, 10, 10, 10, 10, 10, 10, 10, 2] :
        List ℚ).sum / ((([10, 10, 10, 10, 10, 10, 10, 10, 10, 2] : List ℚ).length) : ℚ) *
        0.8)) [10, 10, 10, 10, 10, 10, 10, 10, 10, 2]).length = 1 := by
      norm_num [List.filter]
    rw [hf]
    norm_num [pyRound2, roundHalfEven]

/-- C9 witness: the 9-runs-of-10-plus-one-run-of-2 sample. -/
theorem c9_cache_estimator_witness :
    cacheEfficiencyFromDurations [] =
      { cache_hit_rate_estimate := 0, fast_builds := none, total_builds := none,
        note := "No data available" } ∧
    cacheEfficiencyFromDurations [10, 10, 10, 10, 10, 10, 10, 10, 10, 2] =
      { cache_hit_rate_estimate := 10, fast_builds := some 1, total_builds := some 10,
        note := "Estimated based on build duration variance" } :=
  (c9_cache_estimator [10, 10, 10, 10, 10, 10, 10, 10, 10, 2] (by simp)
    (by norm_num)).2

/-- A sample of 19999 zero-minute durations followed by one 1-minute duration: a
sample on which the rounded hit rate reaches exactly 100. -/
def c10durations : List ℚ := List.replicate 19999 0 ++ [1]

/-- C10 counterexample: on a non-empty non-negative sample of 20000
durations the reported `cache_hit_rate_estimate` equals exactly 100
(19999/20000 * 100 = 99.995 rounds half-to-even up to 100.00), refuting
the claim that it is always strictly below 100. -/
theorem c10_counterexample :
    c10durations ≠ [] ∧ (∀ d ∈ c10durations, 0 ≤ d) ∧
    (cacheEfficiencyFromDurations c10durations).cache_hit_rate_estimate = 100 := by
  have hlen : c10durations.length = 20000 := by
    simp only [c10durations, List.length_append, List.length_replicate,
      List.length_cons, List.length_nil]
  have hne : c10durations ≠ [] := by
    intro hcontra
    rw [hcontra] at hlen
    exact absurd hlen (by norm_num)
  have hnn : ∀ d ∈ c10durations, 0 ≤ d := by
    intro d hd
    simp only [c10durations, List.mem_append, List.mem_replicate,
      List.mem_singleton] at hd
    rcases hd with ⟨_, rfl⟩ | rfl <;> norm_num
  refine ⟨hne, hnn, ?_⟩
  rw [cacheEfficiencyFromDurations_of_ne_nil _ hne]
  have hsum : c10durations.sum = 1 := by
    simp only [c10durations, List.sum_append, List.sum_replicate, List.sum_cons,
      List.sum_nil, smul_zero, zero_add, add_zero]
  have hfilter : (c10durations.filter
      (fun d => d < c10durations.sum / (c10durations.length : ℚ) * 0.8)).length =
        19999 := by
    rw [hsum, hlen]
    simp only [c10durations, List.filter_append, List.filter_replicate,
      List.length_append, List.filter_cons, List.filter_nil]
    norm_num
  rw [hfilter, hlen]
  norm_num [pyRound2, roundHalfEven]

/-- C10 (amended): on every non-empty list of non-negative durations
strictly fewer runs are fast than there are runs in total (not all
durations can lie strictly below 0.8 times their mean), and the reported
hit rate is at most 100 — equality being reachable only through the
2-decimal rounding. -/
theorem c10_fast_lt_total (durations : List ℚ) (hne : durations ≠ [])
    (hnn : ∀ d ∈ durations, 0 ≤ d) :
    ∃ f t, (cacheEfficiencyFromDurations durations).fast_builds = some f ∧
      (cacheEfficiencyFromDurations durations).total_builds = some t ∧ f < t ∧
      (cacheEfficiencyFromDurations durations).cache_hit_rate_estimate ≤ 100 := by
  rw [cacheEfficiencyFromDurations_of_ne_nil durations hne]
  have hn : 0 < durations.length := List.length_pos.mpr hne
  have hn' : (0 : ℚ) < (durations.length : ℚ) := by exact_mod_cast hn
  have hnotall : ¬ ∀ d ∈ durations,
      d < durations.sum / (durations.length : ℚ) * 0.8 := by
    intro hall
    have hlt := sum_lt_of_forall_lt durations _ hne hall
    have heq : durations.sum / (durations.length : ℚ) * 0.8 * (durations.length : ℚ) =
        durations.sum * 0.8 := by
      field_simp
    rw [heq] at hlt
    have hs : 0 ≤ durations.sum := List.sum_nonneg hnn
    nlinarith
  have hflt : (durations.filter
      (fun d => d < durations.sum / (durations.length : ℚ) * 0.8)).length <
        durations.length := by
    rcases lt_or_eq_of_le (List.length_filter_le
      (fun d => decide (d < durations.sum / (durations.length : ℚ) * 0.8))
      durations) with hlt | heq2
    · exact hlt
    · exfalso
      apply hnotall
      intro d hd
      have hmem := List.filter_length_eq_length.mp heq2 d hd
      simpa using hmem
  refine ⟨_, _, rfl, rfl, hflt, ?_⟩
  apply pyRound2_le_100
  have hle : (((durations.filter
      (fun d => d < durations.sum / (durations.length : ℚ) * 0.8)).length : ℚ)) ≤
      (durations.length : ℚ) := by
    exact_mod_cast List.length_filter_le _ _
  have hdiv : (((durations.filter
      (fun d => d < durations.sum / (durations.length : ℚ) * 0.8)).length : ℚ)) /
      (durations.length : ℚ) ≤ 1 := (div_le_one hn').mpr hle
  linarith

/-- C10 witness: the sample [0, 10] has 1 fast run of 2 and a 50 percent
hit rate. -/
theorem c10_fast_lt_total_witness :
    ∃ f t, (cacheEfficiencyFromDurations [0, 10]).fast_builds = some f ∧
      (cacheEfficiencyFromDurations [0, 10]).total_builds = some t ∧ f < t ∧
      (cacheEfficiencyFromDurations [0, 10]).cache_hit_rate_estimate ≤ 100 :=
  c10_fast_lt_total [0, 10] (by simp) (by norm_num)

/-- C4 counterexample: a DemoConfig that is valid per the data model
(baseline_utilization = 100 lies in the permitted interval (0,100]) and
has a priced instance type, yet the report computation fails with
`ZeroDivisionError` (the idle-time denominator `1 - baseline` vanishes),
so no CostReport with the claimed fields exists for it. -/
theorem c4_counterexample :
    pricing.lookup "g4dn.xlarge" = some 0.526 ∧
    generate_demo_report ⟨8, "g4dn.xlarge", 2, 100, 85, 10000⟩ =
      Except.error "ZeroDivisionError" := by
  constructor
  · simp [pricing, List.lookup]
  · simp [generate_demo_report, calculate_gpu_instance_costs, dictGet, costValMul,
      pricing, List.lookup, calculate_utilization_improvement]

/-- C4 (amended): for every DemoConfig with a priced instance type whose
baseline utilization lies strictly inside (0,100) and whose optimized
utilization is positive, the report succeeds, its gpu-instance cost is
unit price times duration times node count, and its total is exactly the
sum of the five cost components. -/
theorem c4_cost_report (cfg : DemoConfig) (p : ℚ)
    (hp : pricing.lookup cfg.instance_type = some p)
    (hb0 : 0 < cfg.baseline_utilization) (hb1 : cfg.baseline_utilization < 100)
    (ho : 0 < cfg.optimized_utilization) :
    ∃ rep, generate_demo_report cfg = Except.ok rep ∧
      rep.infrastructure_costs.gpu_instances =
        p * cfg.duration_hours * (cfg.node_count : ℚ) ∧
      rep.infrastructure_costs.total =
        rep.infrastructure_costs.gpu_instances +
        rep.infrastructure_costs.eks_control_plane +
        rep.infrastructure_costs.monitoring_stack +
        rep.infrastructure_costs.networking +
        rep.infrastructure_costs.storage := by
  have hbne : cfg.baseline_utilization / 100 ≠ 0 :=
    div_ne_zero (ne_of_gt hb0) (by norm_num)
  have hlt1 : cfg.baseline_utilization / 100 < 1 :=
    (div_lt_one (by norm_num : (0 : ℚ) < 100)).mpr hb1
  have h1 : (1 : ℚ) - cfg.baseline_utilization / 100 ≠ 0 := ne_of_gt (by linarith)
  have h2 : cfg.optimized_utilization / 100 / (cfg.baseline_utilization / 100) ≠ 0 :=
    div_ne_zero (div_ne_zero (ne_of_gt ho) (by norm_num)) hbne
  have h1c : calculate_gpu_instance_costs [cfg.instance_type] cfg.duration_hours =
      [(cfg.instance_type, CostVal.num (p * cfg.duration_hours))] := by
    simp only [calculate_gpu_instance_costs, List.map_cons, List.map_nil, hp]
  have hd : dictGet (calculate_gpu_instance_costs [cfg.instance_type]
      cfg.duration_hours) cfg.instance_type (CostVal.num 0) =
      CostVal.num (p * cfg.duration_hours) := by
    rw [h1c]
    simp only [dictGet, List.lookup, beq_self_eq_true]
  have himp : calculate_utilization_improvement (cfg.baseline_utilization / 100)
      (cfg.optimized_utilization / 100) = Except.ok
      { utilization_improvement_percent := (cfg.optimized_utilization / 100 -
          cfg.baseline_utilization / 100) / (cfg.baseline_utilization / 100) * 100
        cost_efficiency_multiplier :=
          cfg.optimized_utilization / 100 / (cfg.baseline_utilization / 100)
        idle_time_reduction_percent := (1 - (1 - cfg.optimized_utilization / 100) /
          (1 - cfg.baseline_utilization / 100)) * 100
        effective_cost_per_work_unit :=
          1 / (cfg.optimized_utilization / 100 / (cfg.baseline_utilization / 100)) } := by
    simp only [calculate_utilization_improvement, hbne, h1, h2, if_false]
  simp only [generate_demo_report, hd, costValMul, himp]
  exact ⟨_, rfl, rfl, rfl⟩

/-- C4 witness: the default demo configuration (8 hours, g4dn.xlarge at
0.526, 2 nodes) yields a gpu-instance cost of exactly 8.416. -/
theorem c4_cost_report_witness :
    ∃ rep, generate_demo_report ⟨8, "g4dn.xlarge", 2, 55, 85, 10000⟩ = Except.ok rep ∧
      rep.infrastructure_costs.gpu_instances = 8.416 ∧
      rep.infrastructure_costs.total =
        rep.infrastructure_costs.gpu_instances +
        rep.infrastructure_costs.eks_control_plane +
        rep.infrastructure_costs.monitoring_stack +
        rep.infrastructure_costs.networking +
        rep.infrastructure_costs.storage := by
  obtain ⟨rep, hok, hgpu, htot⟩ :=
    c4_cost_report ⟨8, "g4dn.xlarge", 2, 55, 85, 10000⟩ 0.526
      (by simp [pricing, List.lookup]) (by norm_num) (by norm_num) (by norm_num)
  refine ⟨rep, hok, ?_, htot⟩
  rw [hgpu]
  norm_num
